import Mathlib

/-!
Shallow embedding of the windowed pagination / virtual-scroll controller
`ChatScrollManager` from `leptos-app/src/chat_scroll_manager.rs`, together
with theorems checking the natural-language specification against it.

Modelling conventions:
- `f64` pixel quantities are modelled as `ℚ` (all arithmetic performed by the
  controller on these values is exact addition/subtraction/multiplication and
  order comparison, which agree with IEEE doubles on the magnitudes involved).
- DOM measurements (`querySelector` + `offset_top`/`offset_height`,
  `offset_to_parent`, container geometry) are oracles passed in as function

  arguments, since the DOM is an external collaborator.
- The reactive cells (`Mut<...>`, `RefCell<...>`) of the single-threaded
  controller are flattened into one `State` record; the spawned async task of
  `load_more` is represented explicitly as a `PendingTask` value whose
  resumption is the `settleTask` function.
-/

-- Rational arithmetic must evaluate inside `decide` proofs about concrete
-- controller runs; these operations are sealed by default in the library.
attribute [local semireducible] Rat.add Rat.sub Rat.mul Rat.inv Rat.ofScientific

namespace ChatScroll

/-- Source `enum ScrollMode { Live, Backward, Forward }`. -/
inductive ScrollMode where
  | live
  | backward
  | forward
deriving DecidableEq, Repr

/-- Source `enum LoadingDirection { Forward, Backward }` (the `None` of the spec is
`Option.none` over this type, as in the source `Mut<Option<LoadingDirection>>`). -/
inductive LoadingDirection where
  | forward
  | backward
deriving DecidableEq, Repr

/-- A message as the controller sees it: unique id and integer timestamp.
`timestamp()` returns a fallible value in the source (`Result<i64>`), so it is
an `Option Int` here; the source reads it with `unwrap_or(0)`. -/
structure Msg where
  id : Nat
  timestamp : Option Int
deriving DecidableEq, Repr

/-- Result of measuring a message element: `offset_top` and `offset_height`. -/
structure ElGeom where
  offsetTop : ℚ
  offsetHeight : ℚ
deriving DecidableEq, Repr

/-- Geometry of the scroll container at a given instant:
`scroll_top`, `scroll_height`, `client_height` and computed paddings. -/
structure ContainerGeom where
  scrollTop : ℚ
  scrollHeight : ℚ
  clientHeight : ℚ
  paddingTop : ℚ
  paddingBottom : ℚ
deriving DecidableEq, Repr

/-- Source `struct ScrollMetrics`. -/
structure ScrollMetrics where
  topGap : ℚ
  bottomGap : ℚ
  minBuffer : ℚ
  stepBack : ℚ
  resultCount : Nat
deriving DecidableEq, Repr

/-- The continuation-dedup key. The source encodes it as the string
`format!("{:?}-{}", direction, timestamp)`, which is an injective encoding of
this pair (the direction word prefix determines the split point). -/
structure ContinuationKey where
  direction : LoadingDirection
  timestamp : Int
deriving DecidableEq, Repr

/-- The Window Query owned by the controller. The source builds it as a
predicate string `room = <id> AND deleted = false [AND timestamp <op> <bound>]
ORDER BY timestamp <order> LIMIT <limit>`; this record keeps the four varying
components structurally. -/
structure Query where
  room : String
  bound : Option (String × Int)
  order : String
  limit : Nat
deriving DecidableEq, Repr

/-- The query issued by `set_live_mode` (and by `new`): no bound, descending. -/
def liveQuery (room : String) (limit : Nat) : Query :=
  { room := room, bound := none, order := "DESC", limit := limit }

/-- The comparison operator chosen in `load_more`:
`let op = if is_backward { "<=" } else { ">=" }`. -/
def opFor (d : LoadingDirection) : String :=
  if d = LoadingDirection.backward then "<=" else ">="

/-- The order chosen in `load_more`:
`let order = if is_backward { "DESC" } else { "ASC" }`. -/
def orderFor (d : LoadingDirection) : String :=
  if d = LoadingDirection.backward then "DESC" else "ASC"

/-- The suspended tail of a `load_more` call: the data captured by the
`spawn_local` closure at the moment the load began. -/
structure PendingTask where
  direction : LoadingDirection
  timestamp : Int
  limit : Nat
  yBefore : ℚ
  countBefore : Nat
deriving DecidableEq, Repr

/-- Entries emitted through `tracing::info!`, abstracted by call site.
`queryError` is the shape a surfaced store failure would take; it lets the
theorems state that no such entry is ever emitted. -/
inductive LogEntry where
  | setLive
  | loadTimestamps (direction : LoadingDirection) (countBefore countAfter : Nat)
  | loadDelta (direction : LoadingDirection) (delta : ℚ)
  | queryError (message : String)
deriving DecidableEq, Repr

/-- Whether a log entry reports a failure. -/
def LogEntry.isError : LogEntry → Bool
  | .queryError _ => true
  | _ => false

/-- The controller state: the fields of `Inner` that carry controller meaning
(reactive cells and `RefCell`s), plus the list of in-flight `load_more` tasks. -/
structure State where
  roomId : String
  mode : ScrollMode
  loading : Option LoadingDirection
  metrics : ScrollMetrics
  messages : List Msg
  currentLimit : Nat
  currentDirection : String
  lastContinuationKey : Option ContinuationKey
  lastScrollTop : ℚ
  userScrolling : Bool
  queryQ : Query
  activeRoom : Option String
  pending : List PendingTask
deriving DecidableEq, Repr

/-- Configuration constant `min_row_px: 74.0`. -/
def minRowPx : ℚ := 74

/-- Configuration constant `min_buffer_size: 0.75`. -/
def minBufferSize : ℚ := 0.75

/-- Configuration constant `continuation_step_back: 0.75`. -/
def continuationStepBack : ℚ := 0.75

/-- Configuration constant `query_size: 3.0`. -/
def querySize : ℚ := 3

/-- Source `compute_limit`: 100 without a bound container, otherwise
`ceil((client_height - paddings) * query_size / min_row_px)` cast to `usize`
(the float-to-usize cast saturates at 0 for negative values, as does
`Int.toNat`). -/
def computeLimit (container : Option ContainerGeom) : Nat :=
  match container with
  | none => 100
  | some g =>
    let contentHeight := g.clientHeight - g.paddingTop - g.paddingBottom
    let queryHeightPx := contentHeight * querySize
    (⌈queryHeightPx / minRowPx⌉).toNat

/-- Source `get_thresholds`: `(150, 240)` without a container, otherwise
`(min_buffer_size * client_height, continuation_step_back * client_height)`. -/
def getThresholds (container : Option ContainerGeom) : ℚ × ℚ :=
  match container with
  | none => (150, 240)
  | some g => (minBufferSize * g.clientHeight, continuationStepBack * g.clientHeight)

/-- Source `items()`: live and backward modes use DESC fetch order, reversed for
display; forward mode uses ASC and is displayed as fetched. -/
def itemsList (mode : ScrollMode) (raw : List Msg) : List Msg :=
  if mode ≠ ScrollMode.forward then raw.reverse else raw

/-- Source `at_earliest`: DESC queries hit the oldest edge when the result count is
strictly below the requested limit. -/
def atEarliest (st : State) : Bool :=
  decide (st.currentDirection = "DESC") && decide (st.messages.length < st.currentLimit)

/-- Source `at_latest`: live mode is always at the latest edge; ASC queries hit it
when the result count is strictly below the requested limit. -/
def atLatest (st : State) : Bool :=
  decide (st.mode = ScrollMode.live) ||
    (decide (st.currentDirection = "ASC") && decide (st.messages.length < st.currentLimit))

/-- Source `should_auto_scroll`: live mode with a bottom gap strictly below 50 px. -/
def shouldAutoScroll (st : State) : Bool :=
  decide (st.mode = ScrollMode.live) && decide (st.metrics.bottomGap < 50)

/-- Source `set_live_mode`: mode to `Live`, continuation key cleared, loading flag
cleared, limit recomputed from the current container geometry, order reset to
DESC, Window Query rewritten to the unbounded descending live query, and the
notification collaborator told this room is active again. -/
def setLiveMode (st : State) (container : Option ContainerGeom) : State :=
  let limit := computeLimit container
  { st with
    mode := ScrollMode.live,
    lastContinuationKey := none,
    loading := none,
    currentLimit := limit,
    currentDirection := "DESC",
    queryQ := liveQuery st.roomId limit,
    activeRoom := some st.roomId }

/-- The backward scan of `get_continuation_anchor`: iterate over the reversed
display list (newest to oldest); a failed element lookup makes the whole
function return `none` (outer `none`); otherwise select the first element whose
bottom edge lies at or above the target (`some (some _)`), or report an
exhausted scan (`some none`). -/
def scanBackward (target : ℚ) (geom : Msg → Option ElGeom) :
    List Msg → Option (Option (ElGeom × Msg))
  | [] => some none
  | m :: rest =>
    match geom m with
    | none => none
    | some e =>
      if e.offsetTop + e.offsetHeight ≤ target then some (some (e, m))
      else scanBackward target geom rest

/-- The forward scan of `get_continuation_anchor`: iterate oldest to newest;
select the first element whose top edge lies at or below the target. -/
def scanForward (target : ℚ) (geom : Msg → Option ElGeom) :
    List Msg → Option (Option (ElGeom × Msg))
  | [] => some none
  | m :: rest =>
    match geom m with
    | none => none
    | some e =>
      if target ≤ e.offsetTop then some (some (e, m))
      else scanForward target geom rest

/-- Source `get_continuation_anchor`: `none` without a bound container or with an
empty display list or whenever an element lookup fails; otherwise the scan
result, falling back to the oldest (backward) or newest (forward) item. -/
def getContinuationAnchor (direction : LoadingDirection) (messageList : List Msg)
    (container : Option ContainerGeom) (geom : Msg → Option ElGeom) :
    Option (ElGeom × Msg) :=
  match container with
  | none => none
  | some g =>
    if messageList.isEmpty then none
    else
      let stepBack := (getThresholds (some g)).2
      if direction = LoadingDirection.backward then
        match messageList.getLast? with
        | none => none
        | some lastMsg =>
          match geom lastMsg with
          | none => none
          | some startEl =>
            let targetPos := startEl.offsetTop + startEl.offsetHeight - stepBack
            match scanBackward targetPos geom messageList.reverse with
            | none => none
            | some (some r) => some r
            | some none =>
              match messageList.head? with
              | none => none
              | some m =>
                match geom m with
                | none => none
                | some e => some (e, m)
      else
        match messageList.head? with
        | none => none
        | some firstMsg =>
          match geom firstMsg with
          | none => none
          | some startEl =>
            let targetPos := startEl.offsetTop + stepBack
            match scanForward targetPos geom messageList with
            | none => none
            | some (some r) => some r
            | some none =>
              match messageList.getLast? with
              | none => none
              | some m =>
                match geom m with
                | none => none
                | some e => some (e, m)

/-- The synchronous prefix of `load_more` (everything before `spawn_local`):
resolve the continuation anchor (abort on failure), compute the dedup key
(abort on a repeat), then set the loading flag and mode, clear the active
room, store the key, compute the limit and the pre-load anchor offset
(`offset_to_parent`, defaulting to 0 on failure), and enqueue the async task. -/
def loadMoreStart (st : State) (direction : LoadingDirection)
    (container : Option ContainerGeom) (elGeom : Msg → Option ElGeom)
    (offsetY : Msg → Option ℚ) : State :=
  let messageList := itemsList st.mode st.messages
  match getContinuationAnchor direction messageList container elGeom with
  | none => st
  | some (_, msg) =>
    let timestamp := msg.timestamp.getD 0
    let key : ContinuationKey := { direction := direction, timestamp := timestamp }
    if st.lastContinuationKey = some key then st
    else
      let newMode :=
        if direction = LoadingDirection.backward then ScrollMode.backward
        else ScrollMode.forward
      let limit := computeLimit container
      let yBefore := (offsetY msg).getD 0
      { st with
        loading := some direction,
        mode := newMode,
        -- the mode just set is Backward or Forward, never Live, so the
        -- active room is always cleared here
        activeRoom := none,
        lastContinuationKey := some key,
        pending := st.pending ++
          [{ direction := direction, timestamp := timestamp, limit := limit,
             yBefore := yBefore, countBefore := messageList.length }] }

/-- What the external world supplies to a resuming `load_more` task: the
contents of the live query after the selection rewrite, the post-reload
`offset_to_parent` measurement of the captured anchor element, and the
container geometry at resume time. -/
structure SettleEnv where
  newMessages : List Msg
  measureAfter : Option ℚ
  container : Option ContainerGeom

/-- What a settled `load_more` task produced: the next controller state, the
log entries it emitted, the viewport scroll position after the task (if a
container is bound), and whether the boundary check routed it through
`set_live_mode`. -/
structure SettleOut where
  state : State
  log : List LogEntry
  scrollTopAfter : Option ℚ
  wentLive : Bool
deriving DecidableEq, Repr

/-- The body of the `spawn_local` closure in `load_more`. `res` is the value
returned by `update_selection`; the source discards it (`let _ = ...`), so it
is bound and ignored here as well. The new query parameters are recorded, the
boundary check may route through `set_live_mode`, and otherwise the corrective
delta `y_after - y_before` (with `y_after` defaulting to 0 when the post-reload
measurement fails) is applied through `scroll_to`, which only moves the
viewport when the delta magnitude exceeds 0.1 px; finally the loading flag is
cleared. -/
def settleTask (st : State) (t : PendingTask) (env : SettleEnv)
    (res : Except String Unit) : SettleOut :=
  let _ := res
  let st1 := { st with
    queryQ := { room := st.roomId, bound := some (opFor t.direction, t.timestamp),
                order := orderFor t.direction, limit := t.limit },
    messages := env.newMessages,
    currentLimit := t.limit,
    currentDirection := orderFor t.direction }
  let log1 := [LogEntry.loadTimestamps t.direction t.countBefore env.newMessages.length]
  if atLatest st1 then
    { state := setLiveMode st1 env.container,
      log := log1 ++ [LogEntry.setLive],
      scrollTopAfter := env.container.map (fun g => g.scrollTop),
      wentLive := true }
  else
    let yAfter := env.measureAfter.getD 0
    let delta := yAfter - t.yBefore
    match env.container with
    | some g =>
      let target := g.scrollTop + delta
      let applied := if (1 / 10 : ℚ) < |target - g.scrollTop| then target else g.scrollTop
      { state := { st1 with loading := none },
        log := log1 ++ [LogEntry.loadDelta t.direction delta],
        scrollTopAfter := some applied,
        wentLive := false }
    | none =>
      { state := { st1 with loading := none },
        log := log1 ++ [LogEntry.loadDelta t.direction delta],
        scrollTopAfter := none,
        wentLive := false }

/-- The DOM-measurement oracle accompanying a scroll event: geometry of the
bound container, plus element measurement oracles used if a load starts. -/
structure ScrollEnv where
  geom : ContainerGeom
  elGeom : Msg → Option ElGeom
  offsetY : Msg → Option ℚ

/-- Source `on_scroll`: always update `last_scroll_top` and the metrics; when the
scroll was user initiated, consume the flag and trigger `load_more` in the
direction indicated by the scroll delta, guarded by the buffer threshold, the
boundary predicates and an idle loading flag. -/
def onScroll (st : State) (env : ScrollEnv) : State :=
  let g := env.geom
  let scrollDelta := g.scrollTop - st.lastScrollTop
  let st1 := { st with
    lastScrollTop := g.scrollTop,
    metrics := { topGap := g.scrollTop,
                 bottomGap := g.scrollHeight - g.scrollTop - g.clientHeight,
                 minBuffer := (getThresholds (some g)).1,
                 stepBack := (getThresholds (some g)).2,
                 resultCount := st.messages.length } }
  if st1.userScrolling then
    let st2 := { st1 with userScrolling := false }
    if (itemsList st2.mode st2.messages).isEmpty then st2
    else
      let minBuffer := (getThresholds (some g)).1
      let bottomGap := g.scrollHeight - g.scrollTop - g.clientHeight
      if scrollDelta < 0 ∧ g.scrollTop < minBuffer ∧
          atEarliest st2 = false ∧ st2.loading = none then
        loadMoreStart st2 LoadingDirection.backward (some g) env.elGeom env.offsetY
      else if 0 < scrollDelta ∧ bottomGap < minBuffer ∧
          atLatest st2 = false ∧ st2.loading = none then
        loadMoreStart st2 LoadingDirection.forward (some g) env.elGeom env.offsetY
      else st2
  else st1

/-- The events driving the controller: wheel/touch gestures, scroll events,
resumption of the oldest in-flight task, and the jump-to-live button. -/
inductive Event where
  | userGesture
  | scroll (env : ScrollEnv)
  | settle (env : SettleEnv) (res : Except String Unit)
  | jumpToLive (container : Option ContainerGeom)

/-- One step of the controller. `jumpToLive` also issues a scroll-to-bottom,
which touches only the DOM viewport, not the controller state. -/
def step (st : State) : Event → State
  | Event.userGesture => { st with userScrolling := true }
  | Event.scroll env => onScroll st env
  | Event.settle env res =>
    match st.pending with
    | [] => st
    | t :: rest => (settleTask { st with pending := rest } t env res).state
  | Event.jumpToLive container => setLiveMode st container

/-- Run a list of events. -/
def run (st : State) (evs : List Event) : State :=
  evs.foldl step st

/-- An event is admissible in a state when it is not a `jumpToLive` pressed
while a load is in flight. -/
def eventOkay (st : State) : Event → Bool
  | Event.jumpToLive _ => st.pending.isEmpty
  | _ => true

/-- A trace is good when `jumpToLive` is only pressed while no load is in
flight. -/
def goodTrace (st : State) : List Event → Bool
  | [] => true
  | e :: es => eventOkay st e && goodTrace (step st e) es

/-- The loading-flag invariant: the flag is `none` exactly when no task is in
flight, at most one task is in flight, and the flag names its direction. -/
def loadInvariant (st : State) : Bool :=
  match st.pending, st.loading with
  | [], none => true
  | [t], some d => decide (t.direction = d)
  | _, _ => false

/-- The state after `new` followed by `bind_container`: mode `Live`, loading
flag clear, default limit 100, descending order, live query issued, the room
marked active, and `last_scroll_top` initialized from the container.
`initialMsgs` is the content delivered by the initial live query. -/
def initState (roomId : String) (initialMsgs : List Msg) (bindScrollTop : ℚ) : State :=
  { roomId := roomId,
    mode := ScrollMode.live,
    loading := none,
    metrics := { topGap := 0, bottomGap := 0, minBuffer := 0, stepBack := 0, resultCount := 0 },
    messages := initialMsgs,
    currentLimit := 100,
    currentDirection := "DESC",
    lastContinuationKey := none,
    lastScrollTop := bindScrollTop,
    userScrolling := false,
    queryQ := liveQuery roomId 100,
    activeRoom := some roomId,
    pending := [] }

/-- The DOM event kinds `bind_container` registers listeners for. -/
inductive DomEvent where
  | scroll
  | wheel
  | touchstart
deriving DecidableEq, Repr

/-- A Rust-side handle to a DOM element: `jsId` identifies the JavaScript
object (two handles with the same `jsId` denote the same DOM element), `addr`
is the machine address of the Rust `JsValue` struct holding the handle.
`HtmlDivElement::clone()` produces a new struct at a fresh address with the
same `jsId`. -/
structure DomEl where
  jsId : Nat
  addr : Nat
deriving DecidableEq, Repr

/-- The binding-related fields of `Inner`, together with the DOM listener
table (element `jsId`, event kind, callback identity) and a fresh-address
counter standing for the allocator. -/
structure BindState where
  container : Option DomEl
  scrollClosure : Option Nat
  wheelClosure : Option Nat
  touchClosure : Option Nat
  listeners : List (Nat × DomEvent × Nat)
  lastScrollTop : ℚ
  nextAlloc : Nat
deriving DecidableEq, Repr

/-- Source `remove_event_listener_with_callback`: drops the matching
(element, event, callback) registrations. -/
def removeListener (ls : List (Nat × DomEvent × Nat)) (el : Nat) (ev : DomEvent)
    (cb : Nat) : List (Nat × DomEvent × Nat) :=
  ls.filter (fun x => x ≠ (el, ev, cb))

/-- Source `bind_container`. Faithful to the source including its same-container
check: `let current = self.container.borrow().clone()` allocates a fresh
`JsValue` struct for the clone, and `std::ptr::eq(a_val, b_val)` compares the
addresses of the two `&JsValue` (the clone versus the caller argument), not
the identity of the JavaScript objects they refer to. `argScrollTop` is the
`scroll_top` of the newly bound container. -/
def bindContainer (st : BindState) (arg : Option DomEl) (argScrollTop : ℚ) :
    BindState :=
  let current := st.container.map (fun c => { c with addr := st.nextAlloc })
  let alloc := st.nextAlloc + 1
  let sameContainer :=
    match current, arg with
    | some a, some b => decide (a.addr = b.addr)
    | none, none => true
    | _, _ => false
  if sameContainer then st
  else
    let torn :=
      match st.container with
      | some oldC =>
        let ls1 := match st.scrollClosure with
          | some cb => removeListener st.listeners oldC.jsId DomEvent.scroll cb
          | none => st.listeners
        let ls2 := match st.wheelClosure with
          | some cb => removeListener ls1 oldC.jsId DomEvent.wheel cb
          | none => ls1
        let ls3 := match st.touchClosure with
          | some cb => removeListener ls2 oldC.jsId DomEvent.touchstart cb
          | none => ls2
        (ls3, (none : Option Nat), (none : Option Nat), (none : Option Nat))
      | none => (st.listeners, st.scrollClosure, st.wheelClosure, st.touchClosure)
    match arg with
    | none =>
      { st with
        container := none,
        listeners := torn.1,
        scrollClosure := torn.2.1,
        wheelClosure := torn.2.2.1,
        touchClosure := torn.2.2.2,
        nextAlloc := alloc }
    | some newC =>
      let scrollCb := alloc
      let wheelCb := alloc + 1
      let touchCb := alloc + 2
      { st with
        container := some newC,
        lastScrollTop := argScrollTop,
        listeners := torn.1 ++
          [(newC.jsId, DomEvent.scroll, scrollCb),
           (newC.jsId, DomEvent.wheel, wheelCb),
           (newC.jsId, DomEvent.touchstart, touchCb)],
        scrollClosure := some scrollCb,
        wheelClosure := some wheelCb,
        touchClosure := some touchCb,
        nextAlloc := alloc + 3 }

/-! Concrete fixtures used by witnesses and counterexamples. -/

/-- Element-measurement oracle for the concurrency counterexample: the newest
message sits far below the rest. -/
def cexElGeom : Msg → Option ElGeom := fun m =>
  if m.id = 99 then some { offsetTop := 1000, offsetHeight := 10 }
  else some { offsetTop := 0, offsetHeight := 5 }

/-- Pre-load `offset_to_parent` oracle for the concurrency counterexample. -/
def cexOffsetY : Msg → Option ℚ := fun _ => some 7

/-- One hundred messages in descending fetch order, ids and timestamps 99
down to 0, matching the default initial limit of 100. -/
def cexMsgs : List Msg :=
  (List.range 100).map (fun i => { id := 99 - i, timestamp := some ((99 : Int) - i) })

/-- Initial state for the concurrency counterexample. -/
def cexInit : State := initState "room1" cexMsgs 50

/-- Container geometry at the first scroll event (scrolled near the top). -/
def cexG1 : ContainerGeom :=
  { scrollTop := 10, scrollHeight := 1000, clientHeight := 100,
    paddingTop := 0, paddingBottom := 0 }

/-- Container geometry at the second scroll event. -/
def cexG2 : ContainerGeom :=
  { scrollTop := 5, scrollHeight := 1000, clientHeight := 100,
    paddingTop := 0, paddingBottom := 0 }

/-- Event trace: an upward user scroll starting a backward load, a
jump-to-live press while that load is still in flight, then another upward
user scroll. -/
def cexEvs : List Event :=
  [Event.userGesture,
   Event.scroll { geom := cexG1, elGeom := cexElGeom, offsetY := cexOffsetY },
   Event.jumpToLive (some cexG1),
   Event.userGesture,
   Event.scroll { geom := cexG2, elGeom := cexElGeom, offsetY := cexOffsetY }]

/-- Container geometry at settle time for the anchor-measurement fixtures. -/
def gMA : ContainerGeom :=
  { scrollTop := 100, scrollHeight := 1000, clientHeight := 100,
    paddingTop := 0, paddingBottom := 0 }

/-- State in a backward load for the anchor-measurement fixtures. -/
def stMA : State := { initState "room1" [] 0 with mode := ScrollMode.backward }

/-- Backward task whose anchor sat 5 px below its parent before the load. -/
def tMA : PendingTask :=
  { direction := LoadingDirection.backward, timestamp := 10, limit := 5,
    yBefore := 5, countBefore := 7 }

/-- Settle environment in which the anchor element cannot be measured after
the reload. -/
def envMA : SettleEnv :=
  { newMessages := [], measureAfter := none, container := some gMA }

/-- State in a backward load for the query-failure fixtures. -/
def stQF : State := { initState "room1" [] 0 with mode := ScrollMode.backward }

/-- Backward task for the query-failure fixtures. -/
def tQF : PendingTask :=
  { direction := LoadingDirection.backward, timestamp := 10, limit := 5,
    yBefore := 2, countBefore := 7 }

/-- Settle environment for the query-failure fixtures. -/
def envQF : SettleEnv :=
  { newMessages := [], measureAfter := some 3, container := some gMA }

/-- State in a forward load for the boundary-transition witness. -/
def stFw : State := { initState "room1" [] 0 with mode := ScrollMode.forward }

/-- Forward task requesting 5 items. -/
def tFw : PendingTask :=
  { direction := LoadingDirection.forward, timestamp := 42, limit := 5,
    yBefore := 0, countBefore := 3 }

/-- Settle environment delivering fewer items than the requested limit. -/
def envFw : SettleEnv :=
  { newMessages := [{ id := 1, timestamp := some 1 }], measureAfter := none,
    container := none }

/-- A single message for the anchor-membership witness. -/
def mW : Msg := { id := 0, timestamp := some 0 }

/-- Degenerate container geometry for the anchor-membership witness. -/
def gW : ContainerGeom :=
  { scrollTop := 0, scrollHeight := 0, clientHeight := 0,
    paddingTop := 0, paddingBottom := 0 }

/-- Constant element-measurement oracle for the anchor-membership witness. -/
def geomW : Msg → Option ElGeom := fun _ => some { offsetTop := 0, offsetHeight := 10 }

/-- State with one message for the abort witness. -/
def stW9 : State := initState "room1" [{ id := 0, timestamp := some 0 }] 0

/-- Live state whose measured bottom gap is 51 px. -/
def liveGap51 : State :=
  { initState "room1" [] 0 with
    metrics := { topGap := 0, bottomGap := 51, minBuffer := 0, stepBack := 0, resultCount := 0 } }

/-- Live state whose measured bottom gap is 49 px. -/
def liveGap49 : State :=
  { initState "room1" [] 0 with
    metrics := { topGap := 0, bottomGap := 49, minBuffer := 0, stepBack := 0, resultCount := 0 } }

/-- Binding state holding container element 1 (Rust-side struct at address 3)
with one complete listener set attached. -/
def bindFix : BindState :=
  { container := some { jsId := 1, addr := 3 },
    scrollClosure := some 4, wheelClosure := some 5, touchClosure := some 6,
    listeners := [(1, DomEvent.scroll, 4), (1, DomEvent.wheel, 5), (1, DomEvent.touchstart, 6)],
    lastScrollTop := 0, nextAlloc := 10 }

/-! Helper lemmas. -/

/-- A successful backward scan selects an element of the scanned list. -/
theorem scanBackward_mem {target : ℚ} {geom : Msg → Option ElGeom} :
    ∀ {l : List Msg} {e : ElGeom} {m : Msg},
      scanBackward target geom l = some (some (e, m)) → m ∈ l := by
  intro l
  induction l with
  | nil => intro e m h; simp [scanBackward] at h
  | cons a as ih =>
    intro e m h
    rw [scanBackward] at h
    cases hg : geom a with
    | none => rw [hg] at h; simp at h
    | some g0 =>
      rw [hg] at h
      dsimp only at h
      by_cases hc : g0.offsetTop + g0.offsetHeight ≤ target
      · rw [if_pos hc] at h
        simp only [Option.some.injEq, Prod.mk.injEq] at h
        exact h.2 ▸ List.mem_cons_self a as
      · rw [if_neg hc] at h
        exact List.mem_cons_of_mem a (ih h)

/-- A successful forward scan selects an element of the scanned list. -/
theorem scanForward_mem {target : ℚ} {geom : Msg → Option ElGeom} :
    ∀ {l : List Msg} {e : ElGeom} {m : Msg},
      scanForward target geom l = some (some (e, m)) → m ∈ l := by
  intro l
  induction l with
  | nil => intro e m h; simp [scanForward] at h
  | cons a as ih =>
    intro e m h
    rw [scanForward] at h
    cases hg : geom a with
    | none => rw [hg] at h; simp at h
    | some g0 =>
      rw [hg] at h
      dsimp only at h
      by_cases hc : target ≤ g0.offsetTop
      · rw [if_pos hc] at h
        simp only [Option.some.injEq, Prod.mk.injEq] at h
        exact h.2 ▸ List.mem_cons_self a as
      · rw [if_neg hc] at h
        exact List.mem_cons_of_mem a (ih h)

/-- Every settlement path clears the loading flag and leaves the pending list
of the state it was given untouched. -/
theorem settleTask_loading_pending (st : State) (t : PendingTask) (env : SettleEnv)
    (res : Except String Unit) :
    (settleTask st t env res).state.loading = none ∧
    (settleTask st t env res).state.pending = st.pending := by
  unfold settleTask
  dsimp only
  split
  · exact ⟨rfl, rfl⟩
  · split
    · exact ⟨rfl, rfl⟩
    · exact ⟨rfl, rfl⟩

/-- With the invariant and an idle loading flag, no task is pending. -/
theorem loadInvariant_pending_nil {st : State} (h : loadInvariant st = true)
    (hl : st.loading = none) : st.pending = [] := by
  unfold loadInvariant at h
  cases hpend : st.pending with
  | nil => rfl
  | cons t rest =>
    rw [hpend, hl] at h
    cases rest <;> simp at h

/-- The function `loadMoreStart` preserves the loading-flag invariant whenever the flag was
idle at the call. -/
theorem loadMoreStart_loadInvariant (st : State) (d : LoadingDirection)
    (c : Option ContainerGeom) (eg : Msg → Option ElGeom) (oy : Msg → Option ℚ)
    (h : loadInvariant st = true) (hl : st.loading = none) :
    loadInvariant (loadMoreStart st d c eg oy) = true := by
  have hp : st.pending = [] := loadInvariant_pending_nil h hl
  unfold loadMoreStart
  dsimp only
  cases hanchor : getContinuationAnchor d (itemsList st.mode st.messages) c eg with
  | none => exact h
  | some pair =>
    obtain ⟨e0, msg⟩ := pair
    dsimp only
    by_cases hkey :
        st.lastContinuationKey = some { direction := d, timestamp := msg.timestamp.getD 0 }
    · rw [if_pos hkey]; exact h
    · rw [if_neg hkey]
      simp [loadInvariant, hp]

/-- The handler `on_scroll` preserves the loading-flag invariant: a load only starts when
the flag is idle. -/
theorem onScroll_loadInvariant (st : State) (env : ScrollEnv)
    (h : loadInvariant st = true) :
    loadInvariant (onScroll st env) = true := by
  unfold onScroll
  dsimp only
  split
  · split
    · exact h
    · split
      · rename_i hcond
        exact loadMoreStart_loadInvariant _ _ _ _ _ h hcond.2.2.2
      · split
        · rename_i hc1 hc2
          exact loadMoreStart_loadInvariant _ _ _ _ _ h hc2.2.2.2
        · exact h
  · exact h

/-- A single event preserves the loading-flag invariant provided a
jump-to-live only happens while no load is in flight. -/
theorem step_loadInvariant (st : State) (e : Event) (h : loadInvariant st = true)
    (hj : eventOkay st e = true) :
    loadInvariant (step st e) = true := by
  cases e with
  | userGesture => exact h
  | scroll env => exact onScroll_loadInvariant st env h
  | settle env res =>
    unfold step
    cases hpend : st.pending with
    | nil => exact h
    | cons t rest =>
      cases rest with
      | cons t2 r2 =>
        unfold loadInvariant at h
        rw [hpend] at h
        cases hld : st.loading <;> rw [hld] at h <;> simp at h
      | nil =>
        obtain ⟨h1, h2⟩ := settleTask_loading_pending { st with pending := [] } t env res
        unfold loadInvariant
        rw [h1, h2]
  | jumpToLive c =>
    have hp : st.pending = [] := by simpa [eventOkay] using hj
    simp [step, setLiveMode, loadInvariant, hp]

/-- Running a good trace from an invariant state keeps the invariant. -/
theorem run_good_loadInvariant (evs : List Event) :
    ∀ st : State, loadInvariant st = true → goodTrace st evs = true →
      loadInvariant (run st evs) = true := by
  induction evs with
  | nil => intro st h _; simpa [run] using h
  | cons e es ih =>
    intro st h hg
    rw [goodTrace, Bool.and_eq_true] at hg
    have hstep := step_loadInvariant st e h hg.1
    have hrw : run st (e :: es) = run (step st e) es := by simp [run]
    rw [hrw]
    exact ih (step st e) hstep hg.2

/-! Claim theorems. -/

/-- C7: in every state, `atEarliest` is true exactly when the current Window
Query order is descending and the last fetched result count is strictly less
than the requested limit; stated over all states, it holds across repeated
fetches with varying limits. -/
theorem at_earliest_characterization (st : State) :
    atEarliest st = true ↔
      (st.currentDirection = "DESC" ∧ st.messages.length < st.currentLimit) := by
  simp [atEarliest]

/-- Witness: a fresh controller with one message (count 1 < limit 100, order
descending) is at the earliest edge. -/
theorem at_earliest_characterization_witness :
    atEarliest (initState "room1" [{ id := 0, timestamp := some 0 }] 0) = true :=
  (at_earliest_characterization (initState "room1" [{ id := 0, timestamp := some 0 }] 0)).mpr
    ⟨rfl, by decide⟩

/-- C10: in every state, `shouldAutoScroll` is true exactly when the mode is
`Live` and the measured bottom gap is strictly below 50 px; in particular it
is false at a 51 px gap and true at a 49 px gap in live mode. -/
theorem should_auto_scroll_characterization :
    (∀ st : State,
      shouldAutoScroll st = true ↔
        (st.mode = ScrollMode.live ∧ st.metrics.bottomGap < 50)) ∧
    shouldAutoScroll liveGap51 = false ∧ shouldAutoScroll liveGap49 = true := by
  refine ⟨fun st => ?_, by decide, by decide⟩
  simp [shouldAutoScroll]

/-- Witness: the characterization applied at the 49 px live state. -/
theorem should_auto_scroll_characterization_witness :
    shouldAutoScroll liveGap49 = true :=
  (should_auto_scroll_characterization.1 liveGap49).mpr ⟨rfl, by decide⟩

/-- C8: calling `setLiveMode` twice in succession with unchanged viewport
geometry produces the same state, hence the same Window Query, as calling it
once; the state after one call has mode `Live`, a cleared ContinuationKey and
a cleared LoadingDirection, and the live Window Query. -/
theorem set_live_mode_idempotent (st : State) (container : Option ContainerGeom) :
    setLiveMode (setLiveMode st container) container = setLiveMode st container ∧
    (setLiveMode st container).mode = ScrollMode.live ∧
    (setLiveMode st container).lastContinuationKey = none ∧
    (setLiveMode st container).loading = none ∧
    (setLiveMode st container).queryQ = liveQuery st.roomId (computeLimit container) := by
  exact ⟨rfl, rfl, rfl, rfl, rfl⟩

/-- C9: whenever `load_more` aborts before beginning a load — anchor
resolution fails (empty window, unbound container, unresolvable element) or
the computed key equals the stored ContinuationKey — the entire controller
state is returned unchanged. -/
theorem load_more_abort_preserves_state (st : State) (direction : LoadingDirection)
    (container : Option ContainerGeom) (elGeom : Msg → Option ElGeom)
    (offsetY : Msg → Option ℚ) :
    (getContinuationAnchor direction (itemsList st.mode st.messages) container elGeom = none →
      loadMoreStart st direction container elGeom offsetY = st) ∧
    (∀ e m,
      getContinuationAnchor direction (itemsList st.mode st.messages) container elGeom =
        some (e, m) →
      st.lastContinuationKey =
        some { direction := direction, timestamp := m.timestamp.getD 0 } →
      loadMoreStart st direction container elGeom offsetY = st) := by
  constructor
  · intro hnone
    unfold loadMoreStart
    dsimp only
    rw [hnone]
  · intro e m hsome hkey
    unfold loadMoreStart
    dsimp only
    rw [hsome]
    dsimp only
    rw [if_pos hkey]

/-- Witness: with no bound container the anchor cannot resolve and the state
is unchanged. -/
theorem load_more_abort_preserves_state_witness :
    loadMoreStart stW9 LoadingDirection.backward none (fun _ => none) (fun _ => none) = stW9 :=
  (load_more_abort_preserves_state stW9 LoadingDirection.backward none
    (fun _ => none) (fun _ => none)).1 rfl

/-- C5: for every display-ordered window and both directions, whenever the
continuation anchor resolves, the selected message is a member of the window
(the scan result or the documented first/last fallback), never an item
outside it. -/
theorem continuation_anchor_mem_window (direction : LoadingDirection)
    (messageList : List Msg) (container : Option ContainerGeom)
    (geom : Msg → Option ElGeom) (e : ElGeom) (m : Msg)
    (h : getContinuationAnchor direction messageList container geom = some (e, m)) :
    m ∈ messageList := by
  unfold getContinuationAnchor at h
  cases container with
  | none => simp at h
  | some g =>
    dsimp only at h
    by_cases hemp : messageList.isEmpty
    · rw [if_pos hemp] at h; simp at h
    · rw [if_neg hemp] at h
      by_cases hdir : direction = LoadingDirection.backward
      · rw [if_pos hdir] at h
        cases hl : messageList.getLast? with
        | none => rw [hl] at h; simp at h
        | some lastMsg =>
          rw [hl] at h
          dsimp only at h
          cases hgl : geom lastMsg with
          | none => rw [hgl] at h; simp at h
          | some startEl =>
            rw [hgl] at h
            dsimp only at h
            cases hs : scanBackward
                (startEl.offsetTop + startEl.offsetHeight -
                  (getThresholds (some g)).2) geom messageList.reverse with
            | none => rw [hs] at h; simp at h
            | some o =>
              rw [hs] at h
              cases o with
              | some r =>
                simp only [Option.some.injEq] at h
                have hmem := scanBackward_mem hs
                rw [h] at hmem
                exact List.mem_reverse.mp hmem
              | none =>
                dsimp only at h
                cases hh : messageList.head? with
                | none => rw [hh] at h; simp at h
                | some m0 =>
                  rw [hh] at h
                  dsimp only at h
                  cases hg0 : geom m0 with
                  | none => rw [hg0] at h; simp at h
                  | some e0 =>
                    rw [hg0] at h
                    simp only [Option.some.injEq, Prod.mk.injEq] at h
                    exact h.2 ▸ List.mem_of_mem_head? (by simp [hh])
      · rw [if_neg hdir] at h
        cases hh : messageList.head? with
        | none => rw [hh] at h; simp at h
        | some firstMsg =>
          rw [hh] at h
          dsimp only at h
          cases hgf : geom firstMsg with
          | none => rw [hgf] at h; simp at h
          | some startEl =>
            rw [hgf] at h
            dsimp only at h
            cases hs : scanForward
                (startEl.offsetTop + (getThresholds (some g)).2)
                geom messageList with
            | none => rw [hs] at h; simp at h
            | some o =>
              rw [hs] at h
              cases o with
              | some r =>
                simp only [Option.some.injEq] at h
                have hmem := scanForward_mem hs
                rw [h] at hmem
                exact hmem
              | none =>
                dsimp only at h
                cases hl : messageList.getLast? with
                | none => rw [hl] at h; simp at h
                | some m0 =>
                  rw [hl] at h
                  dsimp only at h
                  cases hg0 : geom m0 with
                  | none => rw [hg0] at h; simp at h
                  | some e0 =>
                    rw [hg0] at h
                    simp only [Option.some.injEq, Prod.mk.injEq] at h
                    exact h.2 ▸ List.mem_of_mem_getLast? (by simp [hl])

/-- Witness: on the one-element window the backward anchor resolves to that
element, which is a member of the window. -/
theorem continuation_anchor_mem_window_witness :
    getContinuationAnchor LoadingDirection.backward [mW] (some gW) geomW =
      some ({ offsetTop := 0, offsetHeight := 10 }, mW) ∧ mW ∈ [mW] :=
  ⟨by decide,
   continuation_anchor_mem_window LoadingDirection.backward [mW] (some gW) geomW
     { offsetTop := 0, offsetHeight := 10 } mW (by decide)⟩

/-- C3: on settlement, the controller routes through `setLiveMode` exactly
when the boundary condition for the newest edge holds: after a forward load
this happens precisely when the new result count is strictly below the
requested limit (and then the mode is `Live`, the ContinuationKey is cleared
and a fresh unbounded descending query is issued), while after a backward
load (mode `Backward` at settlement) it never happens, even at the earliest
boundary. -/
theorem settle_forward_boundary_live_transition (st : State) (t : PendingTask)
    (env : SettleEnv) (res : Except String Unit) :
    (st.mode = ScrollMode.forward → t.direction = LoadingDirection.forward →
      ((settleTask st t env res).wentLive = true ↔ env.newMessages.length < t.limit) ∧
      (env.newMessages.length < t.limit →
        (settleTask st t env res).state.mode = ScrollMode.live ∧
        (settleTask st t env res).state.lastContinuationKey = none ∧
        (settleTask st t env res).state.loading = none ∧
        (settleTask st t env res).state.queryQ =
          liveQuery st.roomId (computeLimit env.container))) ∧
    (st.mode = ScrollMode.backward → t.direction = LoadingDirection.backward →
      (settleTask st t env res).wentLive = false) := by
  constructor
  · intro hm hd
    unfold settleTask
    dsimp only
    rw [hd]
    have hlat : atLatest { st with
        queryQ := { room := st.roomId,
                    bound := some (opFor LoadingDirection.forward, t.timestamp),
                    order := orderFor LoadingDirection.forward, limit := t.limit },
        messages := env.newMessages,
        currentLimit := t.limit,
        currentDirection := orderFor LoadingDirection.forward } =
        decide (env.newMessages.length < t.limit) := by
      simp [atLatest, orderFor, hm]
    rw [hlat]
    by_cases hlen : env.newMessages.length < t.limit
    · rw [decide_eq_true hlen, if_pos rfl]
      exact ⟨by simp [hlen], fun _ => ⟨rfl, rfl, rfl, rfl⟩⟩
    · rw [decide_eq_false hlen, if_neg Bool.false_ne_true]
      constructor
      · cases env.container <;> simp [hlen]
      · intro hc; exact absurd hc hlen
  · intro hm hd
    unfold settleTask
    dsimp only
    rw [hd]
    have hlat : atLatest { st with
        queryQ := { room := st.roomId,
                    bound := some (opFor LoadingDirection.backward, t.timestamp),
                    order := orderFor LoadingDirection.backward, limit := t.limit },
        messages := env.newMessages,
        currentLimit := t.limit,
        currentDirection := orderFor LoadingDirection.backward } = false := by
      simp [atLatest, orderFor, hm]
    rw [hlat, if_neg Bool.false_ne_true]
    cases env.container <;> rfl

/-- Witness: a forward settlement delivering 1 item against limit 5 goes live
via `setLiveMode`. -/
theorem settle_forward_boundary_live_transition_witness :
    (settleTask stFw tFw envFw (Except.ok ())).wentLive = true ∧
    (settleTask stFw tFw envFw (Except.ok ())).state.mode = ScrollMode.live :=
  ⟨((settle_forward_boundary_live_transition stFw tFw envFw (Except.ok ())).1
      rfl rfl).1.mpr (by decide),
   (((settle_forward_boundary_live_transition stFw tFw envFw (Except.ok ())).1
      rfl rfl).2 (by decide)).1⟩

/-- C1 counterexample: a backward settlement whose anchor cannot be measured
after the reload (`measureAfter = none`) and that does not go live applies a
nonzero corrective scroll: with a pre-load offset of 5 px and a viewport at
scroll position 100, the viewport ends at 95 px, not 100 px. -/
theorem missing_anchor_moves_viewport_cex :
    envMA.measureAfter = none ∧
    (settleTask stMA tMA envMA (Except.ok ())).wentLive = false ∧
    envMA.container = some gMA ∧
    gMA.scrollTop = 100 ∧
    (settleTask stMA tMA envMA (Except.ok ())).scrollTopAfter = some 95 := by
  refine ⟨rfl, by decide, rfl, rfl, by decide⟩

/-- C1 (amended): when the anchor element cannot be measured after the reload
and the settlement does not go live, the post-load offset defaults to zero, so
the applied delta is the negation of the pre-load offset: the viewport moves
to `scrollTop - yBefore` whenever `|yBefore|` exceeds the 0.1 px threshold,
and is left unchanged only otherwise; the loading flag is still cleared. -/
theorem settle_missing_anchor_delta (st : State) (t : PendingTask) (env : SettleEnv)
    (res : Except String Unit) (g : ContainerGeom)
    (hma : env.measureAfter = none) (hc : env.container = some g)
    (hw : (settleTask st t env res).wentLive = false) :
    (settleTask st t env res).scrollTopAfter =
      some (if (1 / 10 : ℚ) < |t.yBefore| then g.scrollTop - t.yBefore else g.scrollTop) ∧
    (settleTask st t env res).state.loading = none := by
  unfold settleTask at hw ⊢
  dsimp only at hw ⊢
  rw [hma, hc] at hw ⊢
  split at hw
  · simp at hw
  · rename_i hlat
    rw [if_neg hlat] at *
    dsimp only
    constructor
    · have h1 : g.scrollTop + ((none : Option ℚ).getD 0 - t.yBefore) - g.scrollTop =
          -t.yBefore := by
        rw [Option.getD_none]; ring
      have h2 : g.scrollTop + ((none : Option ℚ).getD 0 - t.yBefore) =
          g.scrollTop - t.yBefore := by
        rw [Option.getD_none]; ring
      rw [h1, h2, abs_neg]
    · rfl

/-- Witness: the amended statement applied at the concrete fixtures. -/
theorem settle_missing_anchor_delta_witness :
    (settleTask stMA tMA envMA (Except.ok ())).scrollTopAfter =
      some (if (1 / 10 : ℚ) < |tMA.yBefore| then gMA.scrollTop - tMA.yBefore
            else gMA.scrollTop) ∧
    (settleTask stMA tMA envMA (Except.ok ())).state.loading = none :=
  settle_missing_anchor_delta stMA tMA envMA (Except.ok ()) gMA rfl rfl (by decide)

/-- C6 counterexample: when the backing store rejects the rewritten query, the
settlement output is identical to the success output — the failure reaches
neither the caller nor the log (no error entry is emitted) — although the
loading flag is indeed cleared. -/
theorem query_failure_not_surfaced_cex :
    settleTask stQF tQF envQF (Except.error "store rejected the rewritten query") =
      settleTask stQF tQF envQF (Except.ok ()) ∧
    (settleTask stQF tQF envQF
      (Except.error "store rejected the rewritten query")).log.all
        (fun entry => !entry.isError) = true ∧
    (settleTask stQF tQF envQF
      (Except.error "store rejected the rewritten query")).state.loading = none := by
  refine ⟨rfl, by decide, by decide⟩

/-- C6 (amended): the settlement of `load_more` discards the result of the
query rewrite entirely — its output is independent of success or failure, so
a rejection is neither surfaced to the caller nor logged — while the loading
flag is still cleared on every settlement path, so the controller is never
left stuck loading. -/
theorem settle_ignores_update_result (st : State) (t : PendingTask) (env : SettleEnv)
    (res : Except String Unit) :
    settleTask st t env res = settleTask st t env (Except.ok ()) ∧
    (settleTask st t env res).state.loading = none ∧
    (settleTask st t env res).log.all (fun entry => !entry.isError) = true := by
  refine ⟨rfl, (settleTask_loading_pending st t env res).1, ?_⟩
  unfold settleTask
  dsimp only
  split
  · simp [LogEntry.isError]
  · split <;> simp [LogEntry.isError]

/-- C2 counterexample: a trace in which a backward load starts, the
jump-to-live button is pressed while that load is in flight, and a further
user scroll starts a second load. After the jump the loading flag is `none`
although the first task has not settled, and at the end two loads are in
flight simultaneously. -/
theorem concurrent_loads_after_jump_cex :
    (run cexInit (cexEvs.take 3)).loading = none ∧
    (run cexInit (cexEvs.take 3)).pending.length = 1 ∧
    (run cexInit cexEvs).pending.length = 2 := by
  refine ⟨by decide, by decide, by decide⟩

/-- C2 (amended): in every execution in which `jumpToLive`/`setLiveMode` is
never invoked while a load is in flight, the LoadingDirection flag is
non-`None` exactly while a `load_more` task is in flight (and names its
direction), and at most one load is ever in flight — no two concurrent
loads. -/
theorem loading_flag_run_invariant (roomId : String) (msgs : List Msg) (bindTop : ℚ)
    (evs : List Event)
    (hg : goodTrace (initState roomId msgs bindTop) evs = true) :
    loadInvariant (run (initState roomId msgs bindTop) evs) = true :=
  run_good_loadInvariant evs (initState roomId msgs bindTop) rfl hg

/-- Witness: the invariant holds after running the first two events of the
counterexample trace (a user gesture and a scroll that starts one load). -/
theorem loading_flag_run_invariant_witness :
    goodTrace (initState "room1" cexMsgs 50) (cexEvs.take 2) = true ∧
    loadInvariant (run (initState "room1" cexMsgs 50) (cexEvs.take 2)) = true :=
  ⟨by decide, loading_flag_run_invariant "room1" cexMsgs 50 (cexEvs.take 2) (by decide)⟩

/-- C4: evaluating `bind_container` at a handle to the DOM element that is
already bound (same `jsId` 1, caller-side struct at address 7, stored clone at
a fresh address) shows the rebinding is not a no-op: the pointer comparison of
the fresh clone against the argument fails, all three listeners are removed
and three new closures are attached, so the listener set and the stored
closures change, contradicting the same-container no-op the code comments and
the specification describe. -/
theorem bind_same_container_replaces_listeners :
    (bindContainer bindFix (some { jsId := 1, addr := 7 }) 0).container =
      some { jsId := 1, addr := 7 } ∧
    bindContainer bindFix (some { jsId := 1, addr := 7 }) 0 ≠ bindFix ∧
    (bindContainer bindFix (some { jsId := 1, addr := 7 }) 0).listeners ≠
      bindFix.listeners ∧
    (bindContainer bindFix (some { jsId := 1, addr := 7 }) 0).scrollClosure ≠
      bindFix.scrollClosure ∧
    (bindContainer bindFix (some { jsId := 1, addr := 7 }) 0).listeners.length = 3 := by
  refine ⟨by decide, by decide, by decide, by decide, by decide⟩

end ChatScroll
